import Mathlib

/-!
Verification of the weather-service repository (`main.go`) against its
natural-language specification.

The Go source is shallowly embedded: every function of `src/main.go` is
translated to an executable Lean definition.  Go `float64` values are
modelled by `GoFloat`: either NaN, a signed infinity, or a finite value kept
as an exact rational (IEEE-754 binary rounding is not modelled; comparisons
and arithmetic on finite values are exact rational operations, which agree
with the float semantics on every input used in the concrete theorems
below).  Environment lookups (`os.Getenv`) become explicit string
parameters, and the network/JSON-decoding effects of the `/weather` handler
become an explicit `NetOutcome` parameter.  The semantics of the Go standard
library functions the source calls (`strconv.ParseFloat`, `strconv.Atoi`,
`strings.TrimSpace`, `net.ParseIP`, `regexp` on the fixed key pattern, and
`fmt` formatting) are modelled by the correspondingly named definitions,
each of whose doc comment records the modelled subset.
-/

set_option maxRecDepth 8192

namespace WeatherService

/-- View of an `Except` value as a sum, used to derive decidable equality. -/
def exceptToSum {ε α : Type} : Except ε α → ε ⊕ α
  | .error e => .inl e
  | .ok a => .inr a

instance {ε α : Type} [DecidableEq ε] [DecidableEq α] :
    DecidableEq (Except ε α) := fun a b =>
  decidable_of_iff (exceptToSum a = exceptToSum b)
    (by cases a <;> cases b <;> simp [exceptToSum])

/-- Model of a Go `float64` value: NaN, an infinity (`neg` is the sign), or a
finite value represented exactly as a rational. -/
inductive GoFloat where
  | nan : GoFloat
  | inf (neg : Bool) : GoFloat
  | finite (val : ℚ) : GoFloat
deriving DecidableEq, Repr

/-- Go `<` comparison between a float value and a rational constant: NaN
compares false, -Inf is below every constant, +Inf above. -/
def gfLt : GoFloat → ℚ → Bool
  | .nan, _ => false
  | .inf n, _ => n
  | .finite q, c => decide (q < c)

/-- Go `>` comparison between a float value and a rational constant. -/
def gfGt : GoFloat → ℚ → Bool
  | .nan, _ => false
  | .inf n, _ => !n
  | .finite q, c => decide (c < q)

/-- Multiplication of rationals, written on numerators and denominators so
that kernel evaluation works; `ratMul_eq` identifies it with `*`. -/
def ratMul (a b : ℚ) : ℚ := Rat.divInt (a.num * b.num) ((a.den : ℤ) * (b.den : ℤ))

/-- Division of rationals (total, `_ / 0 = 0` as in Mathlib); `ratDiv_eq`
identifies it with `/`. -/
def ratDiv (a b : ℚ) : ℚ := Rat.divInt (a.num * (b.den : ℤ)) ((a.den : ℤ) * b.num)

/-- Addition of rationals; `ratAdd_eq` identifies it with `+`. -/
def ratAdd (a b : ℚ) : ℚ :=
  Rat.divInt (a.num * (b.den : ℤ) + b.num * (a.den : ℤ)) ((a.den : ℤ) * (b.den : ℤ))

theorem ratMul_eq (a b : ℚ) : ratMul a b = a * b := by
  rw [ratMul, Rat.divInt_eq_div]
  push_cast
  conv_rhs => rw [← Rat.num_div_den a, ← Rat.num_div_den b]
  rw [div_mul_div_comm]

theorem ratDiv_eq (a b : ℚ) : ratDiv a b = a / b := by
  rw [ratDiv, Rat.divInt_eq_div]
  push_cast
  conv_rhs => rw [← Rat.num_div_den a, ← Rat.num_div_den b]
  rw [div_div_eq_mul_div, div_mul_eq_mul_div, div_div]

theorem ratAdd_eq (a b : ℚ) : ratAdd a b = a + b := by
  rw [ratAdd, Rat.divInt_eq_div]
  push_cast
  conv_rhs => rw [← Rat.num_div_den a, ← Rat.num_div_den b]
  rw [div_add_div _ _ (Nat.cast_ne_zero.mpr (Rat.den_ne_zero a))
    (Nat.cast_ne_zero.mpr (Rat.den_ne_zero b))]
  congr 1
  ring

/-- Absolute value of a rational, written out so it evaluates. -/
def ratAbs (q : ℚ) : ℚ := if q < 0 then -q else q

theorem ratAbs_eq (q : ℚ) : ratAbs q = |q| := by
  rw [ratAbs]
  split
  · rw [abs_of_neg]
    assumption
  · rw [abs_of_nonneg]
    exact le_of_not_lt (by assumption)

/-- Floor of a rational, computed on the numerator and denominator. -/
def ratFloor (q : ℚ) : ℤ := Int.fdiv q.num (q.den : ℤ)

/-- Round a rational to the nearest integer, ties to even — the rounding Go's
`fmt`/`strconv` formatting uses at a given number of decimals (ties are
evaluated on the exact rational value here, whereas Go evaluates them on the
binary64 value; the two agree on every value appearing in this file).  The
fractional part `q - ratFloor q` equals `t / q.den`, so it is compared
against one half by comparing `2 * t` against `q.den`. -/
def roundTE (q : ℚ) : ℤ :=
  let f := ratFloor q
  let t := q.num - f * (q.den : ℤ)
  if 2 * t < (q.den : ℤ) then f
  else if (q.den : ℤ) < 2 * t then f + 1
  else if f % 2 = 0 then f else f + 1

/-- Decimal digits of a natural number, left-padded with zeros to `width`
characters. -/
def natPad (width n : ℕ) : String :=
  let s := toString n
  String.mk (List.replicate (width - s.length) '0') ++ s

/-- Rendering of a float by Go's `%.0f` verb: NaN prints `NaN`, infinities
print `+Inf`/`-Inf`, finite values round to the nearest integer (a negative
value rounding to zero prints `-0`, as Go does). -/
def fmtF0 : GoFloat → String
  | .nan => "NaN"
  | .inf n => if n then "-Inf" else "+Inf"
  | .finite q =>
    (if q < 0 then "-" else "") ++ toString (Int.toNat (roundTE (ratAbs q)))

/-- Rendering of a float by Go's `%f` verb (six decimals). -/
def fmtF6 : GoFloat → String
  | .nan => "NaN"
  | .inf n => if n then "-Inf" else "+Inf"
  | .finite q =>
    let n := Int.toNat (roundTE (ratMul (ratAbs q) 1000000))
    (if q < 0 then "-" else "") ++ toString (n / 1000000) ++ "." ++
      natPad 6 (n % 1000000)

example : fmtF0 (.finite 25) = "25" := by decide
example : fmtF0 (.finite (-5)) = "-5" := by decide
example : fmtF6 (.finite 0) = "0.000000" := by decide
example : fmtF6 (.finite 91) = "91.000000" := by decide
example : fmtF6 (.finite (mkRat (-3) 2)) = "-1.500000" := by decide

/-- Decimal-digit test on a character. -/
def isDigitB (c : Char) : Bool := '0' ≤ c && c ≤ '9'

/-- Numeric value of a list of decimal digit characters (validity is checked
separately). -/
def digitsToNat (cs : List Char) : ℕ :=
  cs.foldl (fun n c => n * 10 + (c.toNat - 48)) 0

/-- Parse a non-empty all-digit character list as a natural number. -/
def parseNatDigits (cs : List Char) : Option ℕ :=
  if !cs.isEmpty && cs.all isDigitB then some (digitsToNat cs) else none

/-- Split a character list at the first occurrence of `sep`; the second
component is `none` when `sep` does not occur. -/
def splitFirst (sep : Char) : List Char → List Char × Option (List Char)
  | [] => ([], none)
  | c :: r =>
    if c = sep then ([], some r)
    else
      let p := splitFirst sep r
      (c :: p.1, p.2)

/-- Split a character list on every occurrence of `sep` (like
`strings.Split`). -/
def splitOnChar (sep : Char) : List Char → List (List Char)
  | [] => [[]]
  | c :: r =>
    let rest := splitOnChar sep r
    if c = sep then [] :: rest
    else
      match rest with
      | [] => [[c]]
      | g :: gs => (c :: g) :: gs

/-- Strip an optional leading sign; returns (isNegative, remainder). -/
def splitSign : List Char → Bool × List Char
  | '+' :: r => (false, r)
  | '-' :: r => (true, r)
  | r => (false, r)

/-- Exact value of a decimal literal `digits[.digits][e[sign]digits]` (the
input is already lower-cased and sign-stripped), or `none` when the text is
not of that shape.  Models the decimal part of Go `strconv.ParseFloat`
except that the value is kept exact instead of being rounded to binary64,
and hexadecimal literals, digit-separating underscores and the
out-of-float64-range error are not modelled. -/
def parseDecimal (cs : List Char) : Option ℚ :=
  let mant := splitFirst 'e' cs
  let ipfp := splitFirst '.' mant.1
  let ip := ipfp.1
  let fp := (ipfp.2).getD []
  if ip.all isDigitB && fp.all isDigitB && (!ip.isEmpty || !fp.isEmpty) then
    let m : ℕ := digitsToNat (ip ++ fp)
    match mant.2 with
    | none => some (Rat.divInt (m : ℤ) ((10 ^ fp.length : ℕ) : ℤ))
    | some ePart =>
      let se := splitSign ePart
      match parseNatDigits se.2 with
      | none => none
      | some e =>
        some (if se.1 then Rat.divInt (m : ℤ) ((10 ^ (fp.length + e) : ℕ) : ℤ)
          else Rat.divInt ((m * 10 ^ e : ℕ) : ℤ) ((10 ^ fp.length : ℕ) : ℤ))
  else none

/-- Model of Go `strconv.ParseFloat(s, 64)`: accepts `NaN` (unsigned, any
case), signed `Inf`/`Infinity` (any case), and signed decimal literals with
optional fraction and decimal exponent.  The value of a decimal literal is
kept exact (see `parseDecimal`). -/
def parseFloat (s : String) : Option GoFloat :=
  let cs := s.toList.map Char.toLower
  if cs = "nan".toList then some .nan
  else
    let sr := splitSign cs
    if sr.2 = "inf".toList ∨ sr.2 = "infinity".toList then some (.inf sr.1)
    else
      match parseDecimal sr.2 with
      | none => none
      | some q => some (.finite (if sr.1 then -q else q))

/-- Model of Go `strconv.Atoi`: an optional sign followed by a non-empty run
of decimal digits, and nothing else.  Overflow of the 64-bit `int` is not
modelled: Go reports it as an error, and at the one call site (the port
check) an error and a huge value lead to the same result. -/
def atoi (s : String) : Option ℤ :=
  let sr := splitSign s.toList
  match parseNatDigits sr.2 with
  | none => none
  | some n => some (if sr.1 then -(n : ℤ) else (n : ℤ))

/-- Model of Go `unicode.IsSpace` restricted to the Latin-1 white space
characters (space, tab, newline, vertical tab, form feed, carriage return,
NEL, NBSP); white space code points above U+00FF are not modelled. -/
def goIsSpace (c : Char) : Bool :=
  c = ' ' || c = '\t' || c = '\n' || c = '\x0b' || c = '\x0c' || c = '\r' ||
    c = '\x85' || c = '\xa0'

/-- Model of Go `strings.TrimSpace`: drop white space from both ends. -/
def trimSpace (s : String) : String :=
  String.mk (((s.toList.dropWhile goIsSpace).reverse.dropWhile goIsSpace).reverse)

/-- Model of the anchored Go regular expression `^[a-f0-9]{32}$`: exactly 32
characters, each a lowercase hex digit. -/
def matchesHex32 (s : String) : Bool :=
  s.length = 32 && s.toList.all (fun c => isDigitB c || ('a' ≤ c && c ≤ 'f'))

/-- Embedding of `getAPIKey` (main.go:31-43) applied to the value of the
`OPENWEATHER_API_KEY` environment variable.  Like the Go function it returns
the trimmed key together with an optional error: the trimmed key is returned
even on the pattern-check failure path. -/
def getAPIKey (env : String) : String × Option String :=
  let apiKey := trimSpace env
  if apiKey = "" then (apiKey, some "OPENWEATHER_API_KEY is not set")
  else if !matchesHex32 apiKey then (apiKey, some "API key failed pattern check")
  else (apiKey, none)

/-- Embedding of `validateLatitude` (main.go:47-56). -/
def validateLatitude (raw : String) : Except String GoFloat :=
  match parseFloat raw with
  | none => .error ("invalid latitude format: " ++ raw)
  | some lat =>
    if gfLt lat (-90) || gfGt lat 90 then
      .error ("latitude out of range (-90 to 90 degrees): " ++ fmtF6 lat)
    else .ok lat

/-- Embedding of `validateLongitude` (main.go:60-69). -/
def validateLongitude (raw : String) : Except String GoFloat :=
  match parseFloat raw with
  | none => .error ("invalid longitude format: " ++ raw)
  | some lon =>
    if gfLt lon (-180) || gfGt lon 180 then
      .error ("longitude out of range (-180 to 180 degrees): " ++ fmtF6 lon)
    else .ok lon

example : parseFloat "37.7749" = some (.finite (mkRat 377749 10000)) := by decide
example : parseFloat "-90.0" = some (.finite (-90)) := by decide
example : parseFloat "NaN" = some .nan := by decide
example : parseFloat "-NaN" = none := by decide
example : parseFloat "+Inf" = some (.inf false) := by decide
example : parseFloat "1e2" = some (.finite 100) := by decide
example : parseFloat "1.5e-1" = some (.finite (mkRat 3 20)) := by decide
example : parseFloat "" = none := by decide
example : parseFloat "1.2.3" = none := by decide
example : parseFloat "invalid_latitude" = none := by decide
example : validateLatitude "90.0" = .ok (.finite 90) := by decide
example : validateLatitude "100.0" =
    .error "latitude out of range (-90 to 90 degrees): 100.000000" := by
  decide
example : validateLongitude "-180" = .ok (.finite (-180)) := by
  decide
example : getAPIKey " abcdef0123456789abcdef0123456789 " =
    ("abcdef0123456789abcdef0123456789", none) := by decide
example : getAPIKey "" = ("", some "OPENWEATHER_API_KEY is not set") := by
  decide
example : getAPIKey "def0123456789abcdef0123456789xyz" =
    ("def0123456789abcdef0123456789xyz", some "API key failed pattern check") := by
  decide
example : atoi "8080" = some 8080 := by decide
example : atoi "invalid_port" = none := by decide

/-- Embedding of `celsiusToFahrenheit` (main.go:153-155): `(celsius*9.0/5.0)+32.0`,
extended to the non-finite floats by the IEEE rules Go follows. -/
def celsiusToFahrenheit : GoFloat → GoFloat
  | .nan => .nan
  | .inf n => .inf n
  | .finite c => .finite (ratAdd (ratDiv (ratMul c 9) 5) 32)

theorem celsiusToFahrenheit_finite (c : ℚ) :
    celsiusToFahrenheit (.finite c) = .finite (c * 9 / 5 + 32) := by
  simp [celsiusToFahrenheit, ratMul_eq, ratDiv_eq, ratAdd_eq]

/-- Embedding of `getTemperature` (main.go:142-150): pick the bucket by
`temp > 24` / `temp < 10` and format both temperatures with `%.0f`. -/
def getTemperature (temp : GoFloat) : String :=
  if gfGt temp 24 then
    "Hot (" ++ fmtF0 (celsiusToFahrenheit temp) ++ "F / " ++ fmtF0 temp ++ "C)"
  else if gfLt temp 10 then
    "Cold (" ++ fmtF0 (celsiusToFahrenheit temp) ++ "F / " ++ fmtF0 temp ++ "C)"
  else
    "Moderate (" ++ fmtF0 (celsiusToFahrenheit temp) ++ "F / " ++ fmtF0 temp ++ "C)"

/-- The bucket label alone, with the branch conditions of `getTemperature`. -/
def getLabel (temp : GoFloat) : String :=
  if gfGt temp 24 then "Hot" else if gfLt temp 10 then "Cold" else "Moderate"

example : getTemperature (.finite 25) = "Hot (77F / 25C)" := by decide
example : getTemperature (.finite 15) = "Moderate (59F / 15C)" := by decide
example : getTemperature (.finite 5) = "Cold (41F / 5C)" := by decide
example : getTemperature (.finite (-5)) = "Cold (23F / -5C)" := by decide
example : getTemperature .nan = "Moderate (NaNF / NaNC)" := by decide

/-- Hexadecimal-digit test on a character. -/
def isHexDigitB (c : Char) : Bool :=
  isDigitB c || ('a' ≤ c && c ≤ 'f') || ('A' ≤ c && c ≤ 'F')

/-- One dotted-quad field: one to three decimal digits, value at most 255, no
leading zero (Go 1.17+ `net.ParseIP` rejects leading zeros). -/
def isV4Field (cs : List Char) : Bool :=
  !cs.isEmpty && cs.all isDigitB && cs.length ≤ 3 && digitsToNat cs ≤ 255 &&
    (cs.length = 1 || cs.head? ≠ some '0')

/-- IPv4 dotted-quad recognizer: exactly four valid fields. -/
def isValidIPv4Chars (cs : List Char) : Bool :=
  let fs := splitOnChar '.' cs
  fs.length = 4 && fs.all isV4Field

/-- One IPv6 group: one to four hex digits. -/
def isV6Group (cs : List Char) : Bool :=
  !cs.isEmpty && cs.length ≤ 4 && cs.all isHexDigitB

/-- Split at the first `::`, if any. -/
def splitDoubleColon : List Char → Option (List Char × List Char)
  | [] => none
  | ':' :: ':' :: r => some ([], r)
  | c :: r =>
    match splitDoubleColon r with
    | none => none
    | some p => some (c :: p.1, p.2)

/-- Count the 16-bit groups denoted by a colon-split group list; the last
group may be an embedded dotted quad, which counts as two groups.  `none`
when some group is malformed. -/
def countV6Groups : List (List Char) → Option ℕ
  | [] => some 0
  | [g] =>
    if isV6Group g then some 1
    else if isValidIPv4Chars g then some 2
    else none
  | g :: rest => if isV6Group g then (countV6Groups rest).map (· + 1) else none

/-- IPv6 recognizer: at most one `::`; groups of 1-4 hex digits (the final
group may be an embedded IPv4 address); exactly eight groups without `::`,
at most seven with. -/
def isValidIPv6Chars (cs : List Char) : Bool :=
  match splitDoubleColon cs with
  | some p =>
    if (splitDoubleColon p.2).isSome then false
    else
      let lOk := p.1.isEmpty || (splitOnChar ':' p.1).all isV6Group
      let lCount := if p.1.isEmpty then 0 else (splitOnChar ':' p.1).length
      let rCount := if p.2.isEmpty then some 0 else countV6Groups (splitOnChar ':' p.2)
      lOk &&
        match rCount with
        | none => false
        | some rc => decide (lCount + rc ≤ 7)
  | none =>
    match countV6Groups (splitOnChar ':' cs) with
    | some n => decide (n = 8)
    | none => false

/-- Model of Go `net.ParseIP`: the first `.` or `:` decides between the
dotted-quad and the IPv6 syntax; `true` means a non-nil result. -/
def isValidIP (s : String) : Bool :=
  match s.toList.find? (fun c => c = '.' || c = ':') with
  | some '.' => isValidIPv4Chars s.toList
  | some ':' => isValidIPv6Chars s.toList
  | _ => false

example : isValidIP "127.0.0.1" = true := by decide
example : isValidIP "invalid_address" = false := by decide
example : isValidIP "256.0.0.1" = false := by decide
example : isValidIP "127.0.0.01" = false := by decide
example : isValidIP " 127.0.0.1" = false := by decide
example : isValidIP "::1" = true := by decide
example : isValidIP "2001:db8::ff00:42:8329" = true := by decide
example : isValidIP "1:2:3:4:5:6:7:8" = true := by decide
example : isValidIP "1:2:3:4:5:6:7:8:9" = false := by decide
example : isValidIP "::ffff:192.0.2.1" = true := by decide

/-- Embedding of `GetHttpListenAddressAndPort` (main.go:159-184) applied to
the values of `HTTP_LISTEN_ADDR` and `HTTP_LISTEN_PORT`. -/
def GetHttpListenAddressAndPort (rawAddr rawPort : String) : Except String String :=
  if trimSpace rawAddr = "" then
    .error "missing IP address (HTTP_LISTEN_ADDR not set)"
  else if trimSpace rawPort = "" then
    .error "missing port (HTTP_LISTEN_PORT not set)"
  else if !isValidIP rawAddr then
    .error ("invalid IP address: " ++ rawAddr)
  else
    match atoi rawPort with
    | none => .error ("invalid port number: " ++ rawPort)
    | some port =>
      if port < 1 ∨ 65535 < port then .error ("invalid port number: " ++ rawPort)
      else .ok (rawAddr ++ ":" ++ toString port)

example : GetHttpListenAddressAndPort "127.0.0.1" "8080" = .ok "127.0.0.1:8080" := by
  decide
example : GetHttpListenAddressAndPort "" "8080" =
    .error "missing IP address (HTTP_LISTEN_ADDR not set)" := by decide

/-- Characters Go's `fmt` treats as flag, width or precision characters
between `%` and the verb. -/
def fmtSpecChar (c : Char) : Bool :=
  c = '+' || c = '-' || c = '#' || c = ' ' || c = '.' || isDigitB c

/-- Model of Go `fmt.Fprintf` applied to a format string with NO operand
arguments, as on main.go:134: `%%` prints `%`, a trailing `%` prints
`%!(NOVERB)`, and any verb prints `%!<verb>(MISSING)` because the argument
list is exhausted.  The first argument is fuel (one unit per input
character); `*`-widths, which would consume an argument, are not
modelled. -/
def fprintfAux : ℕ → Bool → List Char → List Char
  | 0, _, _ => []
  | _ + 1, false, [] => []
  | n + 1, false, c :: r =>
    if c = '%' then fprintfAux n true r else c :: fprintfAux n false r
  | _ + 1, true, [] => "%!(NOVERB)".toList
  | n + 1, true, c :: r =>
    if c = '%' then '%' :: fprintfAux n false r
    else if fmtSpecChar c then fprintfAux n true r
    else "%!".toList ++ c :: "(MISSING)".toList ++ fprintfAux n false r

/-- `fmt.Fprintf w s` with no further arguments writes this string. -/
def fprintfNoArgs (s : String) : String :=
  String.mk (fprintfAux (s.length + 1) false s.toList)

example : fprintfNoArgs "plain text, no percent" = "plain text, no percent" := by
  decide
example : fprintfNoArgs "50%x cloudy" = "50%!x(MISSING) cloudy" := by decide
example : fprintfNoArgs "100%" = "100%!(NOVERB)" := by decide
example : fprintfNoArgs "a%%b" = "a%b" := by decide

/-- The upstream response decoded into the Go `WeatherData` struct:
the `weather` array projected to its `description` fields, and `main.temp`. -/
structure WeatherData where
  weather : List String
  mainTemp : GoFloat
deriving DecidableEq

/-- Outcome of the handler's single upstream `http.Get` plus JSON decode:
either the request itself fails with some underlying error, or a body is
received and decoding it yields an error or a `WeatherData`. -/
inductive NetOutcome where
  | fail (underlying : String) : NetOutcome
  | ok (decode : Except String WeatherData) : NetOutcome
deriving DecidableEq

/-- What the handler does: write an HTTP response, or panic (Go runtime
index-out-of-range). -/
inductive HandlerOutcome where
  | respond (status : ℕ) (body : String) : HandlerOutcome
  | panics : HandlerOutcome
deriving DecidableEq

/-- The request URL built on main.go:101-102 (`%f` formatting for both
coordinates). -/
def openWeatherURL (lat lon : GoFloat) (apiKey : String) : String :=
  "https://api.openweathermap.org/data/2.5/weather?lat=" ++ fmtF6 lat ++
    "&lon=" ++ fmtF6 lon ++ "&units=metric&appid=" ++ apiKey

/-- Embedding of `weatherHandler` (main.go:79-137).  `env` is the value of
`OPENWEATHER_API_KEY`, `latStr`/`lonStr` the query parameters, `net` the
upstream outcome.  Faithful to the source: the handler tests `apiKey == ""`
(not the error) after `getAPIKey`; `http.Error` bodies carry a trailing
newline; the `http.Get` error string has the shape `Get "<url>": <cause>`
(Go's `url.Error` formatting) and the decode error string is passed through
verbatim; the success body goes through `fmt.Fprintf` with the formatted
text as the FORMAT string (main.go:134), modelled by `fprintfNoArgs`; and
`weatherData.Weather[0]` on an empty slice is a panic. -/
def weatherHandler (env latStr lonStr : String) (net : NetOutcome) : HandlerOutcome :=
  let apiKey := (getAPIKey env).1
  if apiKey = "" then .respond 500 "invalid API key\n"
  else
    match validateLatitude latStr with
    | .error _ => .respond 400 "Invalid latitude\n"
    | .ok latitude =>
      match validateLongitude lonStr with
      | .error _ => .respond 400 "Invalid longitude\n"
      | .ok longitude =>
        match net with
        | .fail underlying =>
          .respond 500 ("Get \"" ++ openWeatherURL latitude longitude apiKey ++
            "\": " ++ underlying ++ "\n")
        | .ok (.error msg) => .respond 500 (msg ++ "\n")
        | .ok (.ok wd) =>
          match wd.weather with
          | [] => .panics
          | d :: _ =>
            .respond 200 (fprintfNoArgs ("Current Temperature:\n  Weather     : " ++
              d ++ "\n  Temperature : " ++ getTemperature wd.mainTemp))

/-- Substring test on character lists (is `needle` a contiguous infix?). -/
def charsContain (needle : List Char) : List Char → Bool
  | [] => needle.isEmpty
  | c :: r => needle.isPrefixOf (c :: r) || charsContain needle r

/-- Is the float a finite value lying in the closed interval `[lo, hi]`? -/
def finiteInRange (g : GoFloat) (lo hi : ℚ) : Bool :=
  match g with
  | .finite q => decide (lo ≤ q ∧ q ≤ hi)
  | _ => false

/-- A well-formed credential (32 lowercase hex characters), used as the
concrete environment value in the handler theorems. -/
def validKey : String := "abcdef0123456789abcdef0123456789"

/-- The exact body `http.Error` sends when `http.Get` fails on the URL built
for `lat=0&lon=0` under `validKey` with underlying cause
`dial tcp: connection refused`. -/
def leakedBody : String :=
  "Get \"https://api.openweathermap.org/data/2.5/weather?lat=0.000000&lon=0.000000&units=metric&appid=abcdef0123456789abcdef0123456789\": dial tcp: connection refused\n"

/-- C1: the claim says a decodable upstream response with an empty
weather-conditions list makes the request path fail with a clear error
response rather than crash.  The code (main.go:124) indexes
`weatherData.Weather[0]` without a guard, so on the upstream body
`(weather := [], main.temp := 20)` — which decodes successfully — the
handler panics instead of responding. -/
theorem weatherHandler_empty_weather_panics :
    weatherHandler validKey "0" "0"
      (.ok (.ok { weather := [], mainTemp := .finite 20 })) = .panics := by
  decide

/-- C2: the claim says a credential failing the 32-hex pattern makes the
handler respond 500 without validating coordinates.  The code (main.go:80-84)
tests `apiKey == ""` instead of the returned error, so for the non-empty
pattern-failing key `not-a-valid-key` — on which `getAPIKey` reports the
pattern-check error — the handler proceeds to coordinate validation and
responds 400 for the out-of-range latitude `91`. -/
theorem weatherHandler_pattern_failed_key_not_rejected :
    (getAPIKey "not-a-valid-key").2 = some "API key failed pattern check" ∧
    weatherHandler "not-a-valid-key" "91" "0" (.fail "dial tcp: connection refused") =
      .respond 400 "Invalid latitude\n" := by
  decide

/-- C3: the claim says every error response body is generic and never
contains upstream internals or the credential.  The code (main.go:105-109)
sends `err.Error()` of the failed `http.Get` to the client, and that string
embeds the request URL, `appid=<credential>` included: the body equals
`leakedBody`, and the credential is a substring of it. -/
theorem weatherHandler_error_body_leaks_credential :
    weatherHandler validKey "0" "0" (.fail "dial tcp: connection refused") =
      .respond 500 leakedBody ∧
    charsContain validKey.toList leakedBody.toList = true := by
  decide

/-- C4: the claim says the 200 body is exactly the three-line template with
the upstream description inserted verbatim, for every description including
ones with percent signs.  The code (main.go:134) passes the formatted text to
`fmt.Fprintf` as the FORMAT string, so the description `50%x cloudy` reaches
the client as `50%!x(MISSING) cloudy`, not verbatim. -/
theorem weatherHandler_success_body_mangles_percent :
    weatherHandler validKey "0" "0"
      (.ok (.ok { weather := ["50%x cloudy"], mainTemp := .finite 20 })) =
      .respond 200
        "Current Temperature:\n  Weather     : 50%!x(MISSING) cloudy\n  Temperature : Moderate (68F / 20C)" ∧
    ("Current Temperature:\n  Weather     : 50%!x(MISSING) cloudy\n  Temperature : Moderate (68F / 20C)" : String) ≠
      "Current Temperature:\n  Weather     : 50%x cloudy\n  Temperature : Moderate (68F / 20C)" := by
  decide

/-- C5 counterexample: the claim says the validator errors on every string
whose value does not lie in [-90, 90].  `strconv.ParseFloat` accepts `NaN`,
and NaN fails both range comparisons (`lat < -90`, `lat > 90`), so
`validateLatitude "NaN"` succeeds although NaN is not a finite value in the
interval. -/
theorem validateLatitude_accepts_nan :
    validateLatitude "NaN" = .ok .nan ∧ finiteInRange .nan (-90) 90 = false := by
  decide

/-- C5 (amended): a validator succeeds, returning the parsed value
unchanged, exactly when the string parses and the value fails both
comparisons against the range bounds — which for finite values means lying
in [-90, 90] (resp. [-180, 180]) inclusive, and also holds for NaN; every
other string yields an error. -/
theorem validate_coordinates_spec : ∀ (s : String) (v : GoFloat) (q : ℚ),
    (validateLatitude s = .ok v ↔
      parseFloat s = some v ∧ gfLt v (-90) = false ∧ gfGt v 90 = false) ∧
    (validateLongitude s = .ok v ↔
      parseFloat s = some v ∧ gfLt v (-180) = false ∧ gfGt v 180 = false) ∧
    ((gfLt (.finite q) (-90) = false ∧ gfGt (.finite q) 90 = false) ↔
      (-90 ≤ q ∧ q ≤ 90)) ∧
    ((∃ m, validateLatitude s = .error m) ∨ ∃ w, validateLatitude s = .ok w) ∧
    ((∃ m, validateLongitude s = .error m) ∨ ∃ w, validateLongitude s = .ok w) := by
  intro s v q
  refine ⟨?_, ?_, ?_, ?_, ?_⟩
  · rw [validateLatitude]
    cases h : parseFloat s with
    | none => simp
    | some w =>
      constructor
      · intro hok
        by_cases hr : (gfLt w (-90) || gfGt w 90) = true
        · simp [hr] at hok
        · simp [hr] at hok
          simp only [Bool.or_eq_true, not_or, Bool.not_eq_true] at hr
          exact ⟨by rw [hok.symm], by rw [← hok]; exact hr.1, by rw [← hok]; exact hr.2⟩
      · rintro ⟨hp, h1, h2⟩
        cases hp
        simp [h1, h2]
  · rw [validateLongitude]
    cases h : parseFloat s with
    | none => simp
    | some w =>
      constructor
      · intro hok
        by_cases hr : (gfLt w (-180) || gfGt w 180) = true
        · simp [hr] at hok
        · simp [hr] at hok
          simp only [Bool.or_eq_true, not_or, Bool.not_eq_true] at hr
          exact ⟨by rw [hok.symm], by rw [← hok]; exact hr.1, by rw [← hok]; exact hr.2⟩
      · rintro ⟨hp, h1, h2⟩
        cases hp
        simp [h1, h2]
  · simp only [gfLt, gfGt, decide_eq_false_iff_not, not_lt]
  · rw [validateLatitude]
    cases parseFloat s
    · exact .inl ⟨_, rfl⟩
    · dsimp only
      split
      · exact .inl ⟨_, rfl⟩
      · exact .inr ⟨_, rfl⟩
  · rw [validateLongitude]
    cases parseFloat s
    · exact .inl ⟨_, rfl⟩
    · dsimp only
      split
      · exact .inl ⟨_, rfl⟩
      · exact .inr ⟨_, rfl⟩

/-- C5 witness: the boundary latitude 90 and longitude -180 are accepted
with their values returned unchanged, via `validate_coordinates_spec`. -/
theorem validate_coordinates_spec_witness :
    validateLatitude "90" = .ok (.finite 90) ∧
    validateLongitude "-180.0" = .ok (.finite (-180)) :=
  ⟨((validate_coordinates_spec "90" (.finite 90) 0).1).mpr (by decide),
   ((validate_coordinates_spec "-180.0" (.finite (-180)) 0).2.1).mpr (by decide)⟩

/-- C6: `getAPIKey` trims the environment value; an empty result fails with
the specific unset message, a trimmed value failing `^[a-f0-9]{32}$` fails
the pattern check, and a matching value is returned exactly as trimmed. -/
theorem getAPIKey_spec : ∀ env : String,
    (trimSpace env = "" →
      getAPIKey env = ("", some "OPENWEATHER_API_KEY is not set")) ∧
    (trimSpace env ≠ "" → matchesHex32 (trimSpace env) = false →
      getAPIKey env = (trimSpace env, some "API key failed pattern check")) ∧
    (matchesHex32 (trimSpace env) = true →
      getAPIKey env = (trimSpace env, none)) := by
  intro env
  refine ⟨?_, ?_, ?_⟩
  · intro h
    rw [getAPIKey]
    simp [h]
  · intro h hm
    rw [getAPIKey]
    simp [h, hm]
  · intro hm
    have h : trimSpace env ≠ "" := by
      intro h0
      rw [h0] at hm
      exact absurd hm (by decide)
    rw [getAPIKey]
    simp [h, hm]

/-- C6 witness: a padded valid key is trimmed, passes the pattern and is
returned exactly, via `getAPIKey_spec`. -/
theorem getAPIKey_spec_witness :
    matchesHex32 (trimSpace " abcdef0123456789abcdef0123456789\n") = true ∧
    getAPIKey " abcdef0123456789abcdef0123456789\n" =
      (trimSpace " abcdef0123456789abcdef0123456789\n", none) :=
  ⟨by decide, (getAPIKey_spec " abcdef0123456789abcdef0123456789\n").2.2 (by decide)⟩

/-- C7: for every finite Celsius value the classifier picks `Hot` when
strictly above 24, `Cold` when strictly below 10, `Moderate` otherwise, and
displays `celsius*9/5+32` and the Celsius value, each rounded to the nearest
integer by `%.0f` (`fmtF0`); the four concrete cases of the spec follow. -/
theorem getTemperature_spec :
    (∀ q : ℚ, getTemperature (.finite q) =
      (if 24 < q then "Hot" else if q < 10 then "Cold" else "Moderate") ++
        " (" ++ fmtF0 (.finite (q * 9 / 5 + 32)) ++ "F / " ++
        fmtF0 (.finite q) ++ "C)") ∧
    getTemperature (.finite 25) = "Hot (77F / 25C)" ∧
    getTemperature (.finite 15) = "Moderate (59F / 15C)" ∧
    getTemperature (.finite 5) = "Cold (41F / 5C)" ∧
    getTemperature (.finite (-5)) = "Cold (23F / -5C)" := by
  refine ⟨?_, by decide, by decide, by decide, by decide⟩
  intro q
  rw [getTemperature, celsiusToFahrenheit_finite]
  simp only [gfGt, gfLt, decide_eq_true_eq]
  split_ifs <;> rfl

/-- C8: `celsiusToFahrenheit` computes `celsius*9/5 + 32`; the spec's table
of values holds, the two decimal cases within the stated 0.001 tolerance. -/
theorem celsiusToFahrenheit_spec :
    (∀ q : ℚ, celsiusToFahrenheit (.finite q) = .finite (q * 9 / 5 + 32)) ∧
    celsiusToFahrenheit (.finite 0) = .finite 32 ∧
    celsiusToFahrenheit (.finite 100) = .finite 212 ∧
    celsiusToFahrenheit (.finite (-40)) = .finite (-40) ∧
    (∃ y : ℚ, celsiusToFahrenheit (.finite 37) = .finite y ∧
      |y - 98.6| ≤ 0.001) ∧
    (∃ y : ℚ, celsiusToFahrenheit (.finite (-273.15)) = .finite y ∧
      |y - -459.67| ≤ 0.001) := by
  refine ⟨celsiusToFahrenheit_finite, ?_, ?_, ?_,
    ⟨98.6, ?_, by norm_num⟩, ⟨-459.67, ?_, by norm_num⟩⟩ <;>
    rw [celsiusToFahrenheit_finite] <;> congr 1 <;> norm_num

/-- C9: `GetHttpListenAddressAndPort` fails with its distinct message for a
blank address (checked first), a blank port, a non-IP address, and a port
that is not an integer in 1..65535; with a valid address and port it returns
exactly `addr:port`. -/
theorem getHttpListenAddressAndPort_spec : ∀ addr port : String,
    (trimSpace addr = "" →
      GetHttpListenAddressAndPort addr port =
        .error "missing IP address (HTTP_LISTEN_ADDR not set)") ∧
    (trimSpace addr ≠ "" → trimSpace port = "" →
      GetHttpListenAddressAndPort addr port =
        .error "missing port (HTTP_LISTEN_PORT not set)") ∧
    (trimSpace addr ≠ "" → trimSpace port ≠ "" → isValidIP addr = false →
      GetHttpListenAddressAndPort addr port =
        .error ("invalid IP address: " ++ addr)) ∧
    (trimSpace addr ≠ "" → trimSpace port ≠ "" → isValidIP addr = true →
      (atoi port = none ∨ ∃ n, atoi port = some n ∧ (n < 1 ∨ 65535 < n)) →
      GetHttpListenAddressAndPort addr port =
        .error ("invalid port number: " ++ port)) ∧
    (∀ n : ℤ, trimSpace addr ≠ "" → trimSpace port ≠ "" → isValidIP addr = true →
      atoi port = some n → 1 ≤ n → n ≤ 65535 →
      GetHttpListenAddressAndPort addr port =
        .ok (addr ++ ":" ++ toString n)) := by
  intro addr port
  refine ⟨?_, ?_, ?_, ?_, ?_⟩
  · intro h
    rw [GetHttpListenAddressAndPort]
    simp [h]
  · intro h1 h2
    rw [GetHttpListenAddressAndPort]
    simp [h1, h2]
  · intro h1 h2 h3
    rw [GetHttpListenAddressAndPort]
    simp [h1, h2, h3]
  · intro h1 h2 h3 h4
    rw [GetHttpListenAddressAndPort]
    simp only [h1, h2, h3, Bool.not_true, if_false, ite_false, Bool.false_eq_true]
    rcases h4 with h | ⟨n, hn, hr⟩
    · simp [h]
    · simp only [hn]
      rw [if_pos hr]
  · intro n h1 h2 h3 h4 h5 h6
    rw [GetHttpListenAddressAndPort]
    simp only [h1, h2, h3, h4, Bool.not_true, if_false, ite_false, Bool.false_eq_true]
    rw [if_neg (by omega)]

/-- C9 witness: the repository's own test values succeed, via
`getHttpListenAddressAndPort_spec`. -/
theorem getHttpListenAddressAndPort_spec_witness :
    GetHttpListenAddressAndPort "127.0.0.1" "8080" = .ok "127.0.0.1:8080" := by
  have h := (getHttpListenAddressAndPort_spec "127.0.0.1" "8080").2.2.2.2 8080
    (by decide) (by decide) (by decide) (by decide) (by decide) (by decide)
  exact h

/-- C10: the classifier is total, its output always begins with exactly one
of the three pairwise-distinct labels chosen by the branch conditions; both
comparisons reject NaN, so `getTemperature NaN` carries the `Moderate`
label; and both coordinate validators accept the string `NaN` (it parses,
and fails neither range comparison), so NaN reaches the classifier through
the public interface. -/
theorem getTemperature_total_spec :
    (∀ g : GoFloat,
      (getLabel g = "Hot" ∨ getLabel g = "Cold" ∨ getLabel g = "Moderate") ∧
      getTemperature g = getLabel g ++ " (" ++ fmtF0 (celsiusToFahrenheit g) ++
        "F / " ++ fmtF0 g ++ "C)") ∧
    ("Hot" : String) ≠ "Cold" ∧ ("Hot" : String) ≠ "Moderate" ∧
    ("Cold" : String) ≠ "Moderate" ∧
    getTemperature .nan = "Moderate (NaNF / NaNC)" ∧
    validateLatitude "NaN" = .ok .nan ∧
    validateLongitude "NaN" = .ok .nan := by
  refine ⟨?_, by decide, by decide, by decide, by decide, by decide, by decide⟩
  intro g
  rw [getTemperature, getLabel]
  refine ⟨?_, ?_⟩
  · split_ifs <;> simp
  · split_ifs <;> rfl

end WeatherService
